import Mathlib

/-!
Shallow embedding of the sales-bonus analyzer.

The repository ships two implementations of the same analyzer:
`src/src/main.js` (namespace `MainJs` below) and the unnamed source file
`src/unnamed/part_000` (namespace `Part000` below).  Both consist of a
revenue strategy `calculateSimpleRevenue`, a bonus strategy
`calculateBonusByProfit`, and the orchestrating `analyzeSalesData`.

Modelling conventions:
- JavaScript numbers are modelled as exact rationals (`ℚ`).
- `toFixed(2)` followed by unary plus is modelled by `round2`, rounding
  half-up to two decimal places.
- A value that may be absent (a missing field, a non-array where an array
  is expected, a non-function where a function is expected) is modelled as
  `none`; thrown exceptions are modelled with `Except`.
- JavaScript object maps keyed by SKU strings are modelled as
  insertion-ordered association lists, matching the enumeration order of
  string-keyed objects.
- The stable in-place `Array.prototype.sort` with comparator
  `(a, b) => b.k - a.k` is modelled by the stable `List.insertionSort`
  with the relation holding when `b.k ≤ a.k`; every stable sort computes
  the same list, so this is extensionally faithful.
-/

/-- Element of `data.sellers`. -/
structure Seller where
  id : String
  first_name : String
  last_name : String
deriving DecidableEq

/-- Element of `data.products`. -/
structure Product where
  sku : String
  purchase_price : ℚ
deriving DecidableEq

/-- Element of `record.items` inside a purchase record. -/
structure LineItem where
  sku : String
  quantity : ℚ
  sale_price : ℚ
  discount : ℚ
deriving DecidableEq

/-- Element of `data.purchase_records`. -/
structure PurchaseRecord where
  seller_id : String
  items : List LineItem
deriving DecidableEq

/-- The `data` argument before validation.  A field is `none` when it is
missing or is not an array. -/
structure RawData where
  sellers : Option (List Seller)
  products : Option (List Product)
  purchase_records : Option (List PurchaseRecord)

/-- Rounding to two decimal places: the model of `+x.toFixed(2)` and of the
helper `round2` of part_000. -/
def round2 (x : ℚ) : ℚ := ((⌊x * 100 + 1 / 2⌋ : ℤ) : ℚ) / 100

/-- Per-seller accumulator object created by `data.sellers.map` in both
implementations (`sellerStats` elements). -/
structure SellerStat where
  id : String
  name : String
  revenue : ℚ
  profit : ℚ
  sales_count : ℕ
  products_sold : List (String × ℚ)
deriving DecidableEq

/-- The `options` argument before validation.  A strategy field is `none`
when it is missing or not callable. -/
structure RawStrategies where
  calculateRevenue : Option (LineItem → Product → ℚ)
  calculateBonus : Option (ℕ → ℕ → SellerStat → ℚ)

/-- The two fatal error kinds thrown by `analyzeSalesData`. -/
inductive AnalyzeError where
  | invalidInput
  | invalidStrategy
deriving DecidableEq

/-- Lookup in `productIndex = Object.fromEntries(products.map(p => [p.sku, p]))`:
with duplicate SKUs the later entry wins, hence the recursion prefers the
tail match. -/
def productLookup (products : List Product) (sku : String) : Option Product :=
  match products with
  | [] => none
  | p :: rest =>
    match productLookup rest sku with
    | some q => some q
    | none => if p.sku = sku then some p else none

/-- Model of `m[sku] = (m[sku] || 0) + q` on a string-keyed object: update in
place when the key exists, append otherwise. -/
def bumpQty (m : List (String × ℚ)) (sku : String) (q : ℚ) : List (String × ℚ) :=
  match m with
  | [] => [(sku, q)]
  | e :: rest => if e.1 = sku then (e.1, e.2 + q) :: rest else e :: bumpQty rest sku q

/-- Whether `sellerIndex[sid]` is defined, i.e. some accumulator has id `sid`. -/
def hasStatId (stats : List SellerStat) (sid : String) : Bool :=
  stats.any (fun s => s.id = sid)

/-- Mutation through `sellerIndex[sid]`: `Object.fromEntries` keeps the last
entry for a duplicated key, so the last accumulator with id `sid` is the one
aliased by the index and updated. -/
def updateLastStat (stats : List SellerStat) (sid : String) (f : SellerStat → SellerStat) :
    List SellerStat :=
  match stats with
  | [] => []
  | s :: rest =>
    if hasStatId rest sid then s :: updateLastStat rest sid f
    else if s.id = sid then f s :: rest
    else s :: rest

/-- Comparator relation of `sellerStats.sort((a, b) => b.profit - a.profit)`:
`a` may stay before `b` exactly when `b.profit ≤ a.profit`. -/
def profitGE (a b : SellerStat) : Prop := b.profit ≤ a.profit

instance : DecidableRel profitGE := fun a b => inferInstanceAs (Decidable (b.profit ≤ a.profit))

instance : IsTotal SellerStat profitGE := ⟨fun a b => le_total b.profit a.profit⟩

instance : IsTrans SellerStat profitGE := ⟨fun _ _ _ h1 h2 => le_trans h2 h1⟩

/-- Comparator relation of `.sort((a, b) => b.quantity - a.quantity)` on
`(sku, quantity)` entries. -/
def qtyGE (a b : String × ℚ) : Prop := b.2 ≤ a.2

instance : DecidableRel qtyGE := fun a b => inferInstanceAs (Decidable (b.2 ≤ a.2))

instance : IsTotal (String × ℚ) qtyGE := ⟨fun a b => le_total b.2 a.2⟩

instance : IsTrans (String × ℚ) qtyGE := ⟨fun _ _ _ h1 h2 => le_trans h2 h1⟩

/-- Fresh accumulators built by `data.sellers.map(...)`; the display name is
first name, a space, last name. -/
def initStats (sellers : List Seller) : List SellerStat :=
  sellers.map (fun s =>
    { id := s.id
      name := s.first_name ++ " " ++ s.last_name
      revenue := 0
      profit := 0
      sales_count := 0
      products_sold := [] })

/-- Extraction of the top products shared by both implementations:
`Object.entries(products_sold)` mapped to `(sku, quantity)` pairs, sorted by
quantity descending with a stable sort, then `slice(0, 10)`. -/
def topProducts (sold : List (String × ℚ)) : List (String × ℚ) :=
  (List.insertionSort qtyGE sold).take 10

namespace Part000

/-- Line 7 of part_000: revenue of one line item. -/
def calculateSimpleRevenue (purchase : LineItem) (_product : Product) : ℚ :=
  let discountDecimal := purchase.discount / 100
  let fullPrice := purchase.sale_price * purchase.quantity
  fullPrice * (1 - discountDecimal)

/-- Line 21 of part_000: tiered bonus by zero-based rank. -/
def calculateBonusByProfit (index : ℕ) (total : ℕ) (seller : SellerStat) : ℚ :=
  let profit := seller.profit
  if index = 0 then profit * (15 / 100)
  else if index = 1 ∨ index = 2 then profit * (10 / 100)
  else if index = total - 1 then 0
  else profit * (5 / 100)

/-- Line 30 of part_000: the default strategy pair. -/
def options : RawStrategies :=
  { calculateRevenue := some calculateSimpleRevenue
    calculateBonus := some calculateBonusByProfit }

/-- Body of the inner `record.items.forEach` of part_000, threading the
seller accumulator and the record-local revenue subtotal `recordRevenue`.
Both running values are rounded to two decimals after each addition. -/
def processItem (calculateRevenue : LineItem → Product → ℚ) (products : List Product)
    (acc : SellerStat × ℚ) (item : LineItem) : SellerStat × ℚ :=
  match productLookup products item.sku with
  | none => acc
  | some product =>
    let cost := product.purchase_price * item.quantity
    let revenue := calculateRevenue item product
    let profit := revenue - cost
    let seller := acc.1
    ({ seller with
        profit := round2 (seller.profit + profit)
        products_sold := bumpQty seller.products_sold item.sku item.quantity },
     round2 (acc.2 + revenue))

/-- Effect of one matched purchase record on its seller accumulator in
part_000: bump `sales_count`, fold the items, then fold the record revenue
subtotal into the running revenue, rounded. -/
def recordBody (calculateRevenue : LineItem → Product → ℚ) (products : List Product)
    (items : List LineItem) (seller : SellerStat) : SellerStat :=
  let seller := { seller with sales_count := seller.sales_count + 1 }
  let r := items.foldl (processItem calculateRevenue products) (seller, 0)
  { r.1 with revenue := round2 (r.1.revenue + r.2) }

/-- Body of `data.purchase_records.forEach` of part_000: a record whose
seller id resolves to no accumulator is skipped whole. -/
def processRecord (calculateRevenue : LineItem → Product → ℚ) (products : List Product)
    (stats : List SellerStat) (record : PurchaseRecord) : List SellerStat :=
  if hasStatId stats record.seller_id then
    updateLastStat stats record.seller_id (recordBody calculateRevenue products record.items)
  else stats

/-- Output record of part_000 (line 123): every currency field is rounded
once more in the final map. -/
structure SellerReport where
  seller_id : String
  name : String
  revenue : ℚ
  profit : ℚ
  sales_count : ℕ
  top_products : List (String × ℚ)
  bonus : ℚ
deriving DecidableEq

/-- Report for one sorted accumulator at rank `index` in part_000, fusing the
bonus-assigning `forEach` (line 113, which stores `round2(bonus)`) with the
final `map` (line 123, which rounds every currency field again). -/
def mkReport (calculateBonus : ℕ → ℕ → SellerStat → ℚ) (totalSellers index : ℕ)
    (s : SellerStat) : SellerReport :=
  let bonus := round2 (calculateBonus index totalSellers s)
  { seller_id := s.id
    name := s.name
    revenue := round2 s.revenue
    profit := round2 s.profit
    sales_count := s.sales_count
    top_products := topProducts s.products_sold
    bonus := round2 bonus }

/-- Reports for the sorted accumulators, in order, with their rank indexes. -/
def buildReports (calculateBonus : ℕ → ℕ → SellerStat → ℚ) (totalSellers : ℕ) :
    ℕ → List SellerStat → List SellerReport
  | _, [] => []
  | index, s :: rest =>
    mkReport calculateBonus totalSellers index s ::
      buildReports calculateBonus totalSellers (index + 1) rest

/-- Line 48 of part_000: validation, accumulation pass, profit-descending
sort, bonus and top-product assembly.  Thrown errors are modelled by
`Except.error`, so a failure yields no partial report. -/
def analyzeSalesData (data : Option RawData) (opts : Option RawStrategies) :
    Except AnalyzeError (List SellerReport) :=
  match data with
  | none => .error .invalidInput
  | some d =>
    match d.sellers, d.products, d.purchase_records with
    | some sellers, some products, some purchase_records =>
      if sellers.isEmpty || products.isEmpty || purchase_records.isEmpty then
        .error .invalidInput
      else
        match opts with
        | none => .error .invalidStrategy
        | some o =>
          match o.calculateRevenue, o.calculateBonus with
          | some calculateRevenue, some calculateBonus =>
            let sellerStats := initStats sellers
            let finalStats :=
              purchase_records.foldl (processRecord calculateRevenue products) sellerStats
            let sortedStats := List.insertionSort profitGE finalStats
            let totalSellers := sortedStats.length
            .ok (buildReports calculateBonus totalSellers 0 sortedStats)
          | _, _ => .error .invalidStrategy
    | _, _, _ => .error .invalidInput

end Part000

/-- Model of JavaScript unary plus applied to an array of plain objects, as
in `+seller.top_products` of main.js: the empty array coerces to `0`, any
nonempty array of objects stringifies to a non-numeric string and coerces to
NaN, modelled as `none`. -/
def plusObjectArray (l : List (String × ℚ)) : Option ℚ :=
  if l.isEmpty then some 0 else none

namespace MainJs

/-- Line 7 of main.js: revenue of one line item (same formula as part_000,
with the result bound to a local before returning). -/
def calculateSimpleRevenue (purchase : LineItem) (_product : Product) : ℚ :=
  let discountDecimal := purchase.discount / 100
  let fullPrice := purchase.sale_price * purchase.quantity
  let revenue := fullPrice * (1 - discountDecimal)
  revenue

/-- Line 22 of main.js: tiered bonus by zero-based rank (identical branches
to part_000; the last-place branch returns the literal `0.0`). -/
def calculateBonusByProfit (index : ℕ) (total : ℕ) (seller : SellerStat) : ℚ :=
  let profit := seller.profit
  if index = 0 then profit * (15 / 100)
  else if index = 1 ∨ index = 2 then profit * (10 / 100)
  else if index = total - 1 then 0
  else profit * (5 / 100)

/-- Line 31 of main.js: the default strategy pair. -/
def options : RawStrategies :=
  { calculateRevenue := some calculateSimpleRevenue
    calculateBonus := some calculateBonusByProfit }

/-- Body of the inner `record.items.forEach` of main.js.  Unlike part_000,
`seller.profit += profit` adds without rounding, and
`recordReveneu += +revenue.toFixed(2)` rounds the single item revenue and
adds it to the unrounded subtotal. -/
def processItem (calculateRevenue : LineItem → Product → ℚ) (products : List Product)
    (acc : SellerStat × ℚ) (item : LineItem) : SellerStat × ℚ :=
  match productLookup products item.sku with
  | none => acc
  | some product =>
    let cost := product.purchase_price * item.quantity
    let revenue := calculateRevenue item product
    let profit := revenue - cost
    let seller := acc.1
    ({ seller with
        profit := seller.profit + profit
        products_sold := bumpQty seller.products_sold item.sku item.quantity },
     acc.2 + round2 revenue)

/-- Effect of one matched purchase record in main.js:
`seller.revenue += recordReveneu` adds the subtotal without rounding. -/
def recordBody (calculateRevenue : LineItem → Product → ℚ) (products : List Product)
    (items : List LineItem) (seller : SellerStat) : SellerStat :=
  let seller := { seller with sales_count := seller.sales_count + 1 }
  let r := items.foldl (processItem calculateRevenue products) (seller, 0)
  { r.1 with revenue := r.1.revenue + r.2 }

/-- Body of `data.purchase_records.forEach` of main.js. -/
def processRecord (calculateRevenue : LineItem → Product → ℚ) (products : List Product)
    (stats : List SellerStat) (record : PurchaseRecord) : List SellerStat :=
  if hasStatId stats record.seller_id then
    updateLastStat stats record.seller_id (recordBody calculateRevenue products record.items)
  else stats

/-- Output record of main.js (line 122).  The field `top_products` is built
as `+seller.top_products`, a number (NaN for nonempty lists), modelled as
`Option ℚ`; this contradicts the JSDoc return type `top_products:Object[]`
on line 40 of main.js. -/
structure SellerReport where
  seller_id : String
  name : String
  revenue : ℚ
  profit : ℚ
  sales_count : ℕ
  top_products : Option ℚ
  bonus : ℚ
deriving DecidableEq

/-- Report for one sorted accumulator at rank `index` in main.js, fusing the
bonus-assigning `forEach` (line 112, which stores the raw bonus) with the
final `map` (line 122, which rounds the currency fields once and coerces
`top_products` with unary plus). -/
def mkReport (calculateBonus : ℕ → ℕ → SellerStat → ℚ) (totalSellers index : ℕ)
    (s : SellerStat) : SellerReport :=
  let bonus := calculateBonus index totalSellers s
  { seller_id := s.id
    name := s.name
    revenue := round2 s.revenue
    profit := round2 s.profit
    sales_count := s.sales_count
    top_products := plusObjectArray (topProducts s.products_sold)
    bonus := round2 bonus }

/-- Reports for the sorted accumulators, in order, with their rank indexes. -/
def buildReports (calculateBonus : ℕ → ℕ → SellerStat → ℚ) (totalSellers : ℕ) :
    ℕ → List SellerStat → List SellerReport
  | _, [] => []
  | index, s :: rest =>
    mkReport calculateBonus totalSellers index s ::
      buildReports calculateBonus totalSellers (index + 1) rest

/-- Line 42 of main.js: validation, accumulation pass, profit-descending
sort, bonus and top-product assembly.  The extra truthiness test
`!calculateRevenue || !calculateBonus` of main.js coincides with the
callability test in this model, since an absent or non-callable strategy is
`none` either way. -/
def analyzeSalesData (data : Option RawData) (opts : Option RawStrategies) :
    Except AnalyzeError (List SellerReport) :=
  match data with
  | none => .error .invalidInput
  | some d =>
    match d.sellers, d.products, d.purchase_records with
    | some sellers, some products, some purchase_records =>
      if sellers.isEmpty || products.isEmpty || purchase_records.isEmpty then
        .error .invalidInput
      else
        match opts with
        | none => .error .invalidStrategy
        | some o =>
          match o.calculateRevenue, o.calculateBonus with
          | some calculateRevenue, some calculateBonus =>
            let sellerStats := initStats sellers
            let finalStats :=
              purchase_records.foldl (processRecord calculateRevenue products) sellerStats
            let sortedStats := List.insertionSort profitGE finalStats
            let totalSellers := sortedStats.length
            .ok (buildReports calculateBonus totalSellers 0 sortedStats)
          | _, _ => .error .invalidStrategy
    | _, _, _ => .error .invalidInput

end MainJs

/-! Spec-side definitions, stated from the words of the specification, to be
compared against the implementations. -/

/-- Tiered bonus value as the specification words it: rank 0 gets 15 percent
of profit, ranks 1 and 2 get 10 percent, last place (rank equal to
`totalSellers - 1`) gets 0, every other rank gets 5 percent, with the first
matching branch winning. -/
def bonusTierSpec (rank totalSellers : ℕ) (profit : ℚ) : ℚ :=
  if rank = 0 then profit * (15 / 100)
  else if rank = 1 ∨ rank = 2 then profit * (10 / 100)
  else if rank = totalSellers - 1 then 0
  else profit * (5 / 100)

/-- Accumulation with rounding to two decimals after each addition, as the
specification words the running-total discipline. -/
def roundedAccum (init : ℚ) (xs : List ℚ) : ℚ :=
  xs.foldl (fun acc x => round2 (acc + x)) init

/-- Profit contributions of the matched line items of a record, in order:
`revenue - purchase_price * quantity` for each item whose SKU resolves. -/
def matchedProfits (calculateRevenue : LineItem → Product → ℚ) (products : List Product)
    (items : List LineItem) : List ℚ :=
  items.filterMap (fun item =>
    (productLookup products item.sku).map
      (fun product => calculateRevenue item product - product.purchase_price * item.quantity))

/-- Revenue contributions of the matched line items of a record, in order. -/
def matchedRevenues (calculateRevenue : LineItem → Product → ℚ) (products : List Product)
    (items : List LineItem) : List ℚ :=
  items.filterMap (fun item =>
    (productLookup products item.sku).map (fun product => calculateRevenue item product))

/-- Whether a collection argument is missing, not a sequence, or empty. -/
def collectionBad {α : Type} : Option (List α) → Bool
  | none => true
  | some l => l.isEmpty

/-- Specification condition for `InvalidInputError`: `data` is missing or
any of the three collections is missing, not a sequence, or empty. -/
def dataInvalid : Option RawData → Bool
  | none => true
  | some d =>
    collectionBad d.sellers || collectionBad d.products || collectionBad d.purchase_records

/-- Specification condition for `InvalidStrategyError`: the strategies
argument is missing or not an object, or either required function is absent
or not callable. -/
def strategiesInvalid : Option RawStrategies → Bool
  | none => true
  | some o => o.calculateRevenue.isNone || o.calculateBonus.isNone

/-! Concrete fixtures used by witnesses and counterexamples. -/

/-- Accumulator with a given profit and empty other fields, for exercising
the bonus strategies. -/
def statOfProfit (p : ℚ) : SellerStat :=
  { id := "", name := "", revenue := 0, profit := p, sales_count := 0, products_sold := [] }

/-- Line item yielding revenue 1 against `prodA`: cost 0.996, profit 0.004. -/
def itemA : LineItem := { sku := "p1", quantity := 1, sale_price := 1, discount := 0 }

/-- Product with purchase price 0.996. -/
def prodA : Product := { sku := "p1", purchase_price := 996 / 1000 }

/-- Single seller of the fixtures. -/
def sellerA : Seller := { id := "s1", first_name := "Ada", last_name := "B" }

/-- Valid input with one seller and one record holding two copies of
`itemA`, so that each matched item contributes profit 0.004: rounding after
each addition yields running profit 0, while summing first and rounding
last yields 0.01. -/
def dataA : RawData :=
  { sellers := some [sellerA]
    products := some [prodA]
    purchase_records := some [{ seller_id := "s1", items := [itemA, itemA] }] }

/-- Valid input with one seller, three products, and one record selling
quantity 1 of `q1`, 5 of `q2` and 3 of `q3` at sale price 2 without
discount; the expected top products are `q2`, `q3`, `q1` by descending
quantity. -/
def dataB : RawData :=
  { sellers := some [sellerA]
    products := some [⟨"q1", 1⟩, ⟨"q2", 1⟩, ⟨"q3", 1⟩]
    purchase_records := some
      [{ seller_id := "s1"
         items :=
          [{ sku := "q1", quantity := 1, sale_price := 2, discount := 0 },
           { sku := "q2", quantity := 5, sale_price := 2, discount := 0 },
           { sku := "q3", quantity := 3, sale_price := 2, discount := 0 }] }] }

/-- C2: for every rank index, total seller count and seller record,
`calculateBonusByProfit` (in both source files) equals the tiered value with
first-matching-branch precedence, and on the ranked profits
[500, 300, 300, 100, 50] the bonuses are 75, 30, 30, 5, 0. -/
theorem c2_bonus_tiers :
    (∀ (index total : ℕ) (seller : SellerStat),
        Part000.calculateBonusByProfit index total seller = bonusTierSpec index total seller.profit
        ∧ MainJs.calculateBonusByProfit index total seller
            = bonusTierSpec index total seller.profit)
    ∧ Part000.calculateBonusByProfit 0 5 (statOfProfit 500) = 75
    ∧ Part000.calculateBonusByProfit 1 5 (statOfProfit 300) = 30
    ∧ Part000.calculateBonusByProfit 2 5 (statOfProfit 300) = 30
    ∧ Part000.calculateBonusByProfit 3 5 (statOfProfit 100) = 5
    ∧ Part000.calculateBonusByProfit 4 5 (statOfProfit 50) = 0 := by
  refine ⟨fun index total seller => ⟨rfl, rfl⟩, ?_, ?_, ?_, ?_, ?_⟩ <;>
    norm_num [Part000.calculateBonusByProfit, statOfProfit]

/-- C3: with a single seller, rank 0 also satisfies the last-place test
(0 = 1 - 1), yet both implementations return the top-tier bonus
`profit * 0.15`, which is nonzero for nonzero profit, because the top-rank
branch is evaluated first. -/
theorem c3_lone_seller_top_bonus (seller : SellerStat) (h : seller.profit ≠ 0) :
    Part000.calculateBonusByProfit 0 1 seller = seller.profit * (15 / 100)
    ∧ MainJs.calculateBonusByProfit 0 1 seller = seller.profit * (15 / 100)
    ∧ Part000.calculateBonusByProfit 0 1 seller ≠ 0
    ∧ (0 : ℕ) = 1 - 1 := by
  refine ⟨rfl, rfl, ?_, rfl⟩
  intro h0
  exact mul_ne_zero h (by norm_num : (15 / 100 : ℚ) ≠ 0) h0

/-- Witness for C3 at a lone seller with profit 200. -/
theorem c3_lone_seller_top_bonus_witness :
    (statOfProfit 200).profit ≠ 0
    ∧ Part000.calculateBonusByProfit 0 1 (statOfProfit 200)
        = (statOfProfit 200).profit * (15 / 100) := by
  have h : (statOfProfit 200).profit ≠ 0 := by norm_num [statOfProfit]
  exact ⟨h, (c3_lone_seller_top_bonus (statOfProfit 200) h).1⟩

/-- C5: `calculateSimpleRevenue` (in both source files) returns
`sale_price * quantity * (1 - discount / 100)`, ignores its product
argument, and returns 180 on the spec example item. -/
theorem c5_simple_revenue (item : LineItem) (p q : Product)
    (_h0 : 0 ≤ item.discount) (_h1 : item.discount ≤ 100) :
    Part000.calculateSimpleRevenue item p
        = item.sale_price * item.quantity * (1 - item.discount / 100)
    ∧ Part000.calculateSimpleRevenue item p = Part000.calculateSimpleRevenue item q
    ∧ MainJs.calculateSimpleRevenue item p
        = item.sale_price * item.quantity * (1 - item.discount / 100)
    ∧ Part000.calculateSimpleRevenue
        { sku := "x", quantity := 2, sale_price := 100, discount := 10 } p = 180 := by
  refine ⟨rfl, rfl, rfl, ?_⟩
  norm_num [Part000.calculateSimpleRevenue]

/-- Witness for C5 at the spec example item, whose discount 10 lies in
[0, 100]. -/
theorem c5_simple_revenue_witness :
    (0 : ℚ) ≤ 10 ∧ (10 : ℚ) ≤ 100
    ∧ Part000.calculateSimpleRevenue
        { sku := "x", quantity := 2, sale_price := 100, discount := 10 } prodA = 180 := by
  refine ⟨by norm_num, by norm_num, ?_⟩
  have h := c5_simple_revenue { sku := "x", quantity := 2, sale_price := 100, discount := 10 }
    prodA prodA (by norm_num) (by norm_num)
  exact h.2.2.2

@[simp] theorem roundedAccum_nil (init : ℚ) : roundedAccum init [] = init := rfl

@[simp] theorem roundedAccum_cons (init x : ℚ) (xs : List ℚ) :
    roundedAccum init (x :: xs) = roundedAccum (round2 (init + x)) xs := rfl

@[simp] theorem matchedProfits_nil (cr : LineItem → Product → ℚ) (products : List Product) :
    matchedProfits cr products [] = [] := rfl

@[simp] theorem matchedRevenues_nil (cr : LineItem → Product → ℚ) (products : List Product) :
    matchedRevenues cr products [] = [] := rfl

theorem matchedProfits_cons_none {products : List Product} {item : LineItem}
    (cr : LineItem → Product → ℚ) (rest : List LineItem)
    (hp : productLookup products item.sku = none) :
    matchedProfits cr products (item :: rest) = matchedProfits cr products rest := by
  simp [matchedProfits, hp]

theorem matchedProfits_cons_some {products : List Product} {item : LineItem} {product : Product}
    (cr : LineItem → Product → ℚ) (rest : List LineItem)
    (hp : productLookup products item.sku = some product) :
    matchedProfits cr products (item :: rest)
      = (cr item product - product.purchase_price * item.quantity)
          :: matchedProfits cr products rest := by
  simp [matchedProfits, hp]

theorem matchedRevenues_cons_none {products : List Product} {item : LineItem}
    (cr : LineItem → Product → ℚ) (rest : List LineItem)
    (hp : productLookup products item.sku = none) :
    matchedRevenues cr products (item :: rest) = matchedRevenues cr products rest := by
  simp [matchedRevenues, hp]

theorem matchedRevenues_cons_some {products : List Product} {item : LineItem} {product : Product}
    (cr : LineItem → Product → ℚ) (rest : List LineItem)
    (hp : productLookup products item.sku = some product) :
    matchedRevenues cr products (item :: rest)
      = cr item product :: matchedRevenues cr products rest := by
  simp [matchedRevenues, hp]

/-- Characterization of the part_000 inner item fold: the accumulator keeps
its id, name, sales count and running revenue, while the running profit and
the record-local subtotal accumulate with rounding after each addition. -/
theorem part000_item_fold (cr : LineItem → Product → ℚ) (products : List Product)
    (items : List LineItem) :
    ∀ acc : SellerStat × ℚ,
      (items.foldl (Part000.processItem cr products) acc).1.id = acc.1.id
      ∧ (items.foldl (Part000.processItem cr products) acc).1.name = acc.1.name
      ∧ (items.foldl (Part000.processItem cr products) acc).1.sales_count = acc.1.sales_count
      ∧ (items.foldl (Part000.processItem cr products) acc).1.revenue = acc.1.revenue
      ∧ (items.foldl (Part000.processItem cr products) acc).1.profit
          = roundedAccum acc.1.profit (matchedProfits cr products items)
      ∧ (items.foldl (Part000.processItem cr products) acc).2
          = roundedAccum acc.2 (matchedRevenues cr products items) := by
  induction items with
  | nil => intro acc; simp
  | cons item rest ih =>
    intro acc
    cases hp : productLookup products item.sku with
    | none =>
      have h := ih acc
      simpa [Part000.processItem, hp, matchedProfits_cons_none cr rest hp,
        matchedRevenues_cons_none cr rest hp] using h
    | some product =>
      have h := ih (Part000.processItem cr products acc item)
      simpa [Part000.processItem, hp, matchedProfits_cons_some cr rest hp,
        matchedRevenues_cons_some cr rest hp] using h

/-- Characterization of the main.js inner item fold: the accumulator keeps
its id, name, sales count and running revenue; the running profit adds each
matched profit without rounding, and the record subtotal adds each item
revenue rounded on its own. -/
theorem mainjs_item_fold (cr : LineItem → Product → ℚ) (products : List Product)
    (items : List LineItem) :
    ∀ acc : SellerStat × ℚ,
      (items.foldl (MainJs.processItem cr products) acc).1.id = acc.1.id
      ∧ (items.foldl (MainJs.processItem cr products) acc).1.name = acc.1.name
      ∧ (items.foldl (MainJs.processItem cr products) acc).1.sales_count = acc.1.sales_count
      ∧ (items.foldl (MainJs.processItem cr products) acc).1.revenue = acc.1.revenue
      ∧ (items.foldl (MainJs.processItem cr products) acc).1.profit
          = acc.1.profit + (matchedProfits cr products items).sum
      ∧ (items.foldl (MainJs.processItem cr products) acc).2
          = acc.2 + ((matchedRevenues cr products items).map round2).sum := by
  induction items with
  | nil => intro acc; simp
  | cons item rest ih =>
    intro acc
    cases hp : productLookup products item.sku with
    | none =>
      have h := ih acc
      simpa [MainJs.processItem, hp, matchedProfits_cons_none cr rest hp,
        matchedRevenues_cons_none cr rest hp] using h
    | some product =>
      have h := ih (MainJs.processItem cr products acc item)
      simp [MainJs.processItem, hp, matchedProfits_cons_some cr rest hp,
        matchedRevenues_cons_some cr rest hp] at h ⊢
      refine ⟨h.1, h.2.1, h.2.2.1, h.2.2.2.1, ?_, ?_⟩
      · rw [h.2.2.2.2.1]; ring
      · rw [h.2.2.2.2.2]; ring

/-- C1 (amended): in part_000 the running profit is rounded after adding
each matched item profit, the record subtotal is rounded after adding each
matched item revenue, and the subtotal is folded into the running revenue
with one more rounding; main.js instead leaves the running profit and the
running revenue unrounded during accumulation and rounds each item revenue
before adding it to the subtotal. -/
theorem c1_rounding_each_step (cr : LineItem → Product → ℚ) (products : List Product)
    (items : List LineItem) (seller : SellerStat) :
    (Part000.recordBody cr products items seller).profit
        = roundedAccum seller.profit (matchedProfits cr products items)
    ∧ (Part000.recordBody cr products items seller).revenue
        = round2 (seller.revenue + roundedAccum 0 (matchedRevenues cr products items))
    ∧ (MainJs.recordBody cr products items seller).profit
        = seller.profit + (matchedProfits cr products items).sum
    ∧ (MainJs.recordBody cr products items seller).revenue
        = seller.revenue + ((matchedRevenues cr products items).map round2).sum := by
  have h0 := part000_item_fold cr products items
    ({ seller with sales_count := seller.sales_count + 1 }, 0)
  have h1 := mainjs_item_fold cr products items
    ({ seller with sales_count := seller.sales_count + 1 }, 0)
  refine ⟨?_, ?_, ?_, ?_⟩
  · simpa [Part000.recordBody] using h0.2.2.2.2.1
  · simp [Part000.recordBody, h0.2.2.2.1, h0.2.2.2.2.2]
  · simpa [MainJs.recordBody] using h1.2.2.2.2.1
  · simp [MainJs.recordBody, h1.2.2.2.1, h1.2.2.2.2.2]

/-- C6: a record whose seller id matches no accumulator leaves the whole
state unchanged in both implementations, and a line item whose SKU matches
no product is skipped while the remaining items of the record are still
processed. -/
theorem c6_referential_gaps (cr : LineItem → Product → ℚ) (products : List Product)
    (stats : List SellerStat) (record : PurchaseRecord)
    (h : ∀ s ∈ stats, s.id ≠ record.seller_id) :
    (Part000.processRecord cr products stats record = stats
      ∧ MainJs.processRecord cr products stats record = stats)
    ∧ ∀ (acc : SellerStat × ℚ) (item : LineItem) (rest : List LineItem),
        productLookup products item.sku = none →
        ((item :: rest).foldl (Part000.processItem cr products) acc
            = rest.foldl (Part000.processItem cr products) acc
          ∧ (item :: rest).foldl (MainJs.processItem cr products) acc
            = rest.foldl (MainJs.processItem cr products) acc) := by
  have hfalse : hasStatId stats record.seller_id = false := by
    simp only [hasStatId, List.any_eq_false, decide_eq_true_eq]
    exact h
  refine ⟨⟨?_, ?_⟩, ?_⟩
  · simp [Part000.processRecord, hfalse]
  · simp [MainJs.processRecord, hfalse]
  · intro acc item rest hp
    constructor <;> simp [Part000.processItem, MainJs.processItem, hp]

/-- Witness for C6: a record with the unknown seller id "zz" leaves the
fresh accumulator state of `sellerA` untouched in both implementations. -/
theorem c6_referential_gaps_witness :
    hasStatId (initStats [sellerA]) "zz" = false
    ∧ Part000.processRecord Part000.calculateSimpleRevenue [prodA] (initStats [sellerA])
        { seller_id := "zz", items := [itemA] } = initStats [sellerA]
    ∧ MainJs.processRecord MainJs.calculateSimpleRevenue [prodA] (initStats [sellerA])
        { seller_id := "zz", items := [itemA] } = initStats [sellerA] := by
  have h : ∀ s ∈ initStats [sellerA],
      s.id ≠ ({ seller_id := "zz", items := [itemA] } : PurchaseRecord).seller_id := by
    simp [initStats, sellerA]
  have h1 := c6_referential_gaps Part000.calculateSimpleRevenue [prodA] (initStats [sellerA])
    { seller_id := "zz", items := [itemA] } h
  have h2 := c6_referential_gaps MainJs.calculateSimpleRevenue [prodA] (initStats [sellerA])
    { seller_id := "zz", items := [itemA] } h
  exact ⟨by simp [hasStatId, initStats, sellerA], h1.1.1, h2.1.2⟩

/-- C1 counterexample: on `dataA` the main.js report carries profit 0.01,
while the rounding-after-each-addition discipline the claim states for both
files yields running profit 0 (and reported profit 0). -/
theorem c1_unrounded_accumulation_mainjs :
    Except.map (List.map MainJs.SellerReport.profit)
        (MainJs.analyzeSalesData (some dataA) (some MainJs.options)) = Except.ok [1 / 100]
    ∧ round2 (roundedAccum 0
        (matchedProfits MainJs.calculateSimpleRevenue [prodA] [itemA, itemA])) = 0
    ∧ (1 / 100 : ℚ) ≠ 0 := by
  refine ⟨?_, ?_, by norm_num⟩
  · norm_num [MainJs.analyzeSalesData, dataA, sellerA, prodA, itemA, initStats, MainJs.options,
      MainJs.processRecord, MainJs.recordBody, MainJs.processItem, productLookup, bumpQty,
      hasStatId, updateLastStat, MainJs.mkReport, MainJs.buildReports, topProducts,
      plusObjectArray, MainJs.calculateSimpleRevenue, MainJs.calculateBonusByProfit, round2,
      profitGE, qtyGE, Except.map]
  · have hm : matchedProfits MainJs.calculateSimpleRevenue [prodA] [itemA, itemA]
        = [1 / 250, 1 / 250] := by
      norm_num [matchedProfits, List.filterMap_cons, productLookup, prodA, itemA,
        MainJs.calculateSimpleRevenue]
    rw [hm]
    norm_num [roundedAccum, round2]

/-- C9 (amended): the default strategy functions of the two source files are
extensionally equal. -/
theorem c9_strategies_agree :
    (∀ (item : LineItem) (product : Product),
        MainJs.calculateSimpleRevenue item product = Part000.calculateSimpleRevenue item product)
    ∧ ∀ (index total : ℕ) (seller : SellerStat),
        MainJs.calculateBonusByProfit index total seller
          = Part000.calculateBonusByProfit index total seller :=
  ⟨fun _ _ => rfl, fun _ _ _ => rfl⟩

/-- C9 counterexample: on the valid input `dataA` with each file's default
strategies, part_000 reports profit 0 while main.js reports profit 0.01, so
the two analyzers do not return identical report sequences. -/
theorem c9_implementations_differ :
    Except.map (List.map Part000.SellerReport.profit)
        (Part000.analyzeSalesData (some dataA) (some Part000.options)) = Except.ok [0]
    ∧ Except.map (List.map MainJs.SellerReport.profit)
        (MainJs.analyzeSalesData (some dataA) (some MainJs.options)) = Except.ok [1 / 100]
    ∧ (0 : ℚ) ≠ 1 / 100 := by
  refine ⟨?_, ?_, by norm_num⟩
  · norm_num [Part000.analyzeSalesData, dataA, sellerA, prodA, itemA, initStats, Part000.options,
      Part000.processRecord, Part000.recordBody, Part000.processItem, productLookup, bumpQty,
      hasStatId, updateLastStat, Part000.mkReport, Part000.buildReports, topProducts,
      plusObjectArray, Part000.calculateSimpleRevenue, Part000.calculateBonusByProfit, round2,
      profitGE, qtyGE, Except.map]
  · norm_num [MainJs.analyzeSalesData, dataA, sellerA, prodA, itemA, initStats, MainJs.options,
      MainJs.processRecord, MainJs.recordBody, MainJs.processItem, productLookup, bumpQty,
      hasStatId, updateLastStat, MainJs.mkReport, MainJs.buildReports, topProducts,
      plusObjectArray, MainJs.calculateSimpleRevenue, MainJs.calculateBonusByProfit, round2,
      profitGE, qtyGE, Except.map]

/-- C7 (amended): both implementations fail with the invalid-input error
exactly when the data argument is invalid, and fail with the
invalid-strategy error exactly when the data argument is valid and the
strategies argument is invalid; the data check runs first.  Failures are
modelled as `Except.error`, so they carry no partial result. -/
theorem c7_validation_errors (data : Option RawData) (opts : Option RawStrategies) :
    (Part000.analyzeSalesData data opts = .error .invalidInput ↔ dataInvalid data = true)
    ∧ (Part000.analyzeSalesData data opts = .error .invalidStrategy
        ↔ (dataInvalid data = false ∧ strategiesInvalid opts = true))
    ∧ (MainJs.analyzeSalesData data opts = .error .invalidInput ↔ dataInvalid data = true)
    ∧ (MainJs.analyzeSalesData data opts = .error .invalidStrategy
        ↔ (dataInvalid data = false ∧ strategiesInvalid opts = true)) := by
  rcases data with _ | ⟨(_ | (_ | ⟨s0, sl⟩)), (_ | (_ | ⟨p0, pl⟩)), (_ | (_ | ⟨r0, rl⟩))⟩ <;>
    rcases opts with _ | ⟨(_ | f), (_ | g)⟩ <;>
      simp [Part000.analyzeSalesData, MainJs.analyzeSalesData, dataInvalid, strategiesInvalid,
        collectionBad]

/-- C7 counterexample: with both arguments missing, the strategies argument
is invalid and yet neither implementation fails with the invalid-strategy
error, because the data check runs first; so failing with the
invalid-strategy error is not equivalent to the strategies argument being
invalid. -/
theorem c7_error_precedence_counterexample :
    strategiesInvalid none = true
    ∧ Part000.analyzeSalesData none none = Except.error AnalyzeError.invalidInput
    ∧ Part000.analyzeSalesData none none ≠ Except.error AnalyzeError.invalidStrategy
    ∧ MainJs.analyzeSalesData none none ≠ Except.error AnalyzeError.invalidStrategy := by
  refine ⟨rfl, rfl, ?_, ?_⟩ <;>
    simp [Part000.analyzeSalesData, MainJs.analyzeSalesData]

/-- C4: top products are always at most ten entries sorted by quantity
non-increasing (shown in general for the shared extraction, on a fixture
through the part_000 pipeline, and on a twelve-entry tally exercising the
cut to ten); main.js, however, coerces the list with unary plus in its
final report, yielding NaN (`none`) instead of the list, against its own
JSDoc return type. -/
theorem c4_top_products :
    (∀ sold : List (String × ℚ),
        (topProducts sold).length ≤ 10
        ∧ (topProducts sold).Pairwise (fun a b => b.2 ≤ a.2))
    ∧ Except.map (List.map Part000.SellerReport.top_products)
        (Part000.analyzeSalesData (some dataB) (some Part000.options))
        = Except.ok [[("q2", 5), ("q3", 3), ("q1", 1)]]
    ∧ Except.map (List.map MainJs.SellerReport.top_products)
        (MainJs.analyzeSalesData (some dataB) (some MainJs.options))
        = Except.ok [none]
    ∧ topProducts
        [("a", 1), ("b", 2), ("c", 3), ("d", 4), ("e", 5), ("f", 6), ("g", 7), ("h", 8),
         ("i", 9), ("j", 10), ("k", 11), ("l", 12)]
        = [("l", 12), ("k", 11), ("j", 10), ("i", 9), ("h", 8), ("g", 7), ("f", 6), ("e", 5),
           ("d", 4), ("c", 3)] := by
  refine ⟨fun sold => ⟨?_, ?_⟩, ?_, ?_, ?_⟩
  · calc (topProducts sold).length
        = min 10 (List.insertionSort qtyGE sold).length := by simp [topProducts]
      _ ≤ 10 := min_le_left _ _
  · exact List.Pairwise.sublist (List.take_sublist 10 _)
      (List.sorted_insertionSort qtyGE sold)
  · norm_num [Part000.analyzeSalesData, dataB, sellerA, initStats, Part000.options,
      Part000.processRecord, Part000.recordBody, Part000.processItem, productLookup, bumpQty,
      hasStatId, updateLastStat, Part000.mkReport, Part000.buildReports, topProducts,
      plusObjectArray, Part000.calculateSimpleRevenue, Part000.calculateBonusByProfit, round2,
      profitGE, qtyGE, Except.map]
  · norm_num [MainJs.analyzeSalesData, dataB, sellerA, initStats, MainJs.options,
      MainJs.processRecord, MainJs.recordBody, MainJs.processItem, productLookup, bumpQty,
      hasStatId, updateLastStat, MainJs.mkReport, MainJs.buildReports, topProducts,
      plusObjectArray, MainJs.calculateSimpleRevenue, MainJs.calculateBonusByProfit, round2,
      profitGE, qtyGE, Except.map]
  · norm_num [topProducts, qtyGE]

/-- Rounding to two decimals is monotone, so sorting accumulators by profit
and then rounding the profits keeps the reports sorted. -/
theorem round2_mono {a b : ℚ} (h : a ≤ b) : round2 a ≤ round2 b := by
  unfold round2
  have h1 : (⌊a * 100 + 1 / 2⌋ : ℤ) ≤ ⌊b * 100 + 1 / 2⌋ := Int.floor_mono (by linarith)
  have h2 : ((⌊a * 100 + 1 / 2⌋ : ℤ) : ℚ) ≤ ((⌊b * 100 + 1 / 2⌋ : ℤ) : ℚ) := by exact_mod_cast h1
  linarith

theorem part000_buildReports_length (cb : ℕ → ℕ → SellerStat → ℚ) (total : ℕ) :
    ∀ (idx : ℕ) (stats : List SellerStat),
      (Part000.buildReports cb total idx stats).length = stats.length := by
  intro idx stats
  induction stats generalizing idx with
  | nil => rfl
  | cons s rest ih => simp [Part000.buildReports, ih]

theorem part000_buildReports_map_id (cb : ℕ → ℕ → SellerStat → ℚ) (total : ℕ) :
    ∀ (idx : ℕ) (stats : List SellerStat),
      (Part000.buildReports cb total idx stats).map Part000.SellerReport.seller_id
        = stats.map SellerStat.id := by
  intro idx stats
  induction stats generalizing idx with
  | nil => rfl
  | cons s rest ih => simp [Part000.buildReports, Part000.mkReport, ih]

theorem part000_mem_buildReports (cb : ℕ → ℕ → SellerStat → ℚ) (total : ℕ) :
    ∀ (idx : ℕ) (stats : List SellerStat) (y : Part000.SellerReport),
      y ∈ Part000.buildReports cb total idx stats →
      ∃ j s, s ∈ stats ∧ y = Part000.mkReport cb total j s := by
  intro idx stats
  induction stats generalizing idx with
  | nil => intro y hy; simp [Part000.buildReports] at hy
  | cons s rest ih =>
    intro y hy
    simp only [Part000.buildReports, List.mem_cons] at hy
    rcases hy with hy | hy
    · exact ⟨idx, s, by simp, hy⟩
    · rcases ih (idx + 1) y hy with ⟨j, t, ht, rfl⟩
      exact ⟨j, t, by simp [ht], rfl⟩

theorem part000_buildReports_pairwise {S : Part000.SellerReport → Part000.SellerReport → Prop}
    (cb : ℕ → ℕ → SellerStat → ℚ) (total : ℕ)
    (hS : ∀ (i j : ℕ) (a b : SellerStat), profitGE a b →
        S (Part000.mkReport cb total i a) (Part000.mkReport cb total j b)) :
    ∀ (idx : ℕ) (stats : List SellerStat), stats.Pairwise profitGE →
      (Part000.buildReports cb total idx stats).Pairwise S := by
  intro idx stats
  induction stats generalizing idx with
  | nil => intro _; exact List.Pairwise.nil
  | cons s rest ih =>
    intro hp
    rcases List.pairwise_cons.mp hp with ⟨hhead, htail⟩
    refine List.pairwise_cons.mpr ⟨?_, ih (idx + 1) htail⟩
    intro y hy
    rcases part000_mem_buildReports cb total (idx + 1) rest y hy with ⟨j, t, ht, rfl⟩
    exact hS idx j s t (hhead t ht)

theorem map_id_updateLastStat (sid : String) (f : SellerStat → SellerStat)
    (hf : ∀ s, (f s).id = s.id) :
    ∀ stats : List SellerStat,
      (updateLastStat stats sid f).map SellerStat.id = stats.map SellerStat.id := by
  intro stats
  induction stats with
  | nil => rfl
  | cons s rest ih =>
    by_cases h1 : hasStatId rest sid = true
    · simp [updateLastStat, h1, ih]
    · by_cases h2 : s.id = sid
      · simp [updateLastStat, h1, h2, hf]
      · simp [updateLastStat, h1, h2]

theorem part000_recordBody_id (cr : LineItem → Product → ℚ) (products : List Product)
    (items : List LineItem) (s : SellerStat) :
    (Part000.recordBody cr products items s).id = s.id := by
  have h := part000_item_fold cr products items ({ s with sales_count := s.sales_count + 1 }, 0)
  simpa [Part000.recordBody] using h.1

theorem part000_processRecord_map_id (cr : LineItem → Product → ℚ) (products : List Product)
    (stats : List SellerStat) (record : PurchaseRecord) :
    (Part000.processRecord cr products stats record).map SellerStat.id
      = stats.map SellerStat.id := by
  by_cases h : hasStatId stats record.seller_id = true
  · simp only [Part000.processRecord, h, if_true]
    exact map_id_updateLastStat _ _ (part000_recordBody_id cr products record.items) stats
  · simp [Part000.processRecord, h]

theorem part000_fold_records_map_id (cr : LineItem → Product → ℚ) (products : List Product) :
    ∀ (records : List PurchaseRecord) (stats : List SellerStat),
      ((records.foldl (Part000.processRecord cr products) stats).map SellerStat.id)
        = stats.map SellerStat.id := by
  intro records
  induction records with
  | nil => intro stats; rfl
  | cons r rs ih => intro stats; rw [List.foldl_cons, ih, part000_processRecord_map_id]

theorem initStats_map_id (sellers : List Seller) :
    (initStats sellers).map SellerStat.id = sellers.map Seller.id := by
  simp [initStats, List.map_map, Function.comp_def]

/-- C8: on every input passing validation, with unique seller ids as the
data model requires, the part_000 report sequence has one entry per
distinct seller (its seller ids are a permutation of the input ids and its
length is the number of distinct sellers) and is sorted by profit
non-increasing. -/
theorem c8_report_shape (sellers : List Seller) (products : List Product)
    (records : List PurchaseRecord) (cr : LineItem → Product → ℚ)
    (cb : ℕ → ℕ → SellerStat → ℚ) (reports : List Part000.SellerReport)
    (hnodup : (sellers.map Seller.id).Nodup)
    (hok : Part000.analyzeSalesData
        (some { sellers := some sellers, products := some products,
                purchase_records := some records })
        (some { calculateRevenue := some cr, calculateBonus := some cb })
        = Except.ok reports) :
    reports.length = (sellers.map Seller.id).dedup.length
    ∧ List.Perm (reports.map Part000.SellerReport.seller_id) (sellers.map Seller.id)
    ∧ reports.Pairwise (fun a b => b.profit ≤ a.profit) := by
  have hmapid : (records.foldl (Part000.processRecord cr products) (initStats sellers)).map
      SellerStat.id = sellers.map Seller.id := by
    rw [part000_fold_records_map_id, initStats_map_id]
  have hlen : (records.foldl (Part000.processRecord cr products) (initStats sellers)).length
      = sellers.length := by
    have h := congrArg List.length hmapid
    simpa using h
  by_cases hcond : (sellers.isEmpty || products.isEmpty || records.isEmpty) = true
  · simp [Part000.analyzeSalesData, hcond] at hok
  · rw [Bool.not_eq_true] at hcond
    simp only [Part000.analyzeSalesData, hcond, Bool.false_eq_true, if_false,
      Except.ok.injEq] at hok
    subst hok
    refine ⟨?_, ?_, ?_⟩
    · rw [part000_buildReports_length, List.length_insertionSort, hlen,
        List.dedup_eq_self.mpr hnodup, List.length_map]
    · rw [part000_buildReports_map_id, ← hmapid]
      exact (List.perm_insertionSort profitGE _).map SellerStat.id
    · refine part000_buildReports_pairwise _ _ ?_ 0 _ (List.sorted_insertionSort profitGE _)
      intro i j a b hab
      show (Part000.mkReport cb _ j b).profit ≤ (Part000.mkReport cb _ i a).profit
      simp only [Part000.mkReport]
      exact round2_mono hab

/-- Expected part_000 report on `dataA`. -/
def reportA : List Part000.SellerReport :=
  [{ seller_id := "s1", name := "Ada B", revenue := 2, profit := 0, sales_count := 1,
     top_products := [("p1", 2)], bonus := 0 }]

/-- Witness for C8 on `dataA` with the default strategies. -/
theorem c8_report_shape_witness :
    ([sellerA].map Seller.id).Nodup
    ∧ Part000.analyzeSalesData (some dataA) (some Part000.options) = Except.ok reportA
    ∧ reportA.length = ([sellerA].map Seller.id).dedup.length
    ∧ List.Perm (reportA.map Part000.SellerReport.seller_id) ([sellerA].map Seller.id)
    ∧ reportA.Pairwise (fun a b => b.profit ≤ a.profit) := by
  have hnodup : ([sellerA].map Seller.id).Nodup := by simp
  have hok : Part000.analyzeSalesData (some dataA) (some Part000.options)
      = Except.ok reportA := by
    norm_num [Part000.analyzeSalesData, dataA, sellerA, prodA, itemA, initStats, Part000.options,
      Part000.processRecord, Part000.recordBody, Part000.processItem, productLookup, bumpQty,
      hasStatId, updateLastStat, Part000.mkReport, Part000.buildReports, topProducts,
      Part000.calculateSimpleRevenue, Part000.calculateBonusByProfit, round2, profitGE, qtyGE,
      reportA]
    rfl
  have h := c8_report_shape [sellerA] [prodA] [{ seller_id := "s1", items := [itemA, itemA] }]
    Part000.calculateSimpleRevenue Part000.calculateBonusByProfit reportA hnodup hok
  exact ⟨hnodup, hok, h.1, h.2.1, h.2.2⟩
